import Mathlib

/-!
Verification of `gemini_table_titles.py` (table-title extraction pipeline).

The program renders PDF pages as images, sends each image to an external
multimodal model, normalizes the free-text answer of the model into a list of
`{title, page_number}` records, and writes the collection to disk.

Shallow embedding conventions:
* Python values that can flow through `json.loads` are modelled by the
  inductive type `Json` (numbers as `Int`; the float case is irrelevant to
  the claims and is absorbed by the abstract parse argument below).
* Python `dict`s with string keys are association lists (`Dict`) together
  with the operations `dictGet`, `dictHasKey`, `dictSet` mirroring lookup,
  the `in` operator, and item assignment.
* Python exceptions are modelled with `Except PyErr`; a `try/except`
  block becomes an explicit `match` on the guarded computation.
* External library calls (`json.loads`, `model.generate_content`,
  `convert_from_path`, `process_pdf_with_gemini` seen from the driver) are
  abstracted as function arguments, so every theorem quantifies over their
  behaviour; concrete instances used in witnesses are consistent with the
  real libraries on the specific inputs used.
* `str.strip` / `str.replace` / `int(...)` are re-implemented on character
  lists (`pyStrip`, `pyReplace`, `pyIntParse`) so that every definition
  evaluates inside the kernel. `pyStrip` strips the ASCII whitespace
  characters; Python additionally strips some rare Unicode spaces, which
  no claim depends on.
-/

/-- Embedding of the Python values produced by `json.loads`. -/
inductive Json where
  | null
  | bool (b : Bool)
  | num (n : Int)
  | str (s : String)
  | arr (elems : List Json)
  | obj (entries : List (String × Json))

/-- A Python `dict` with string keys, as an association list in insertion
order. Dictionaries built by `json.loads` never contain duplicate keys. -/
abbrev Dict := List (String × Json)

/-- Python dictionary lookup `d[k]` (as an `Option`). -/
def dictGet : Dict → String → Option Json
  | [], _ => none
  | kv :: rest, k => if kv.1 = k then some kv.2 else dictGet rest k

/-- The Python test `k in d` on a dictionary. -/
def dictHasKey : Dict → String → Bool
  | [], _ => false
  | kv :: rest, k => if kv.1 = k then true else dictHasKey rest k

/-- Replace the value at an existing key, keeping insertion order. -/
def replaceKey : Dict → String → Json → Dict
  | [], _, _ => []
  | kv :: rest, k, v =>
      (if kv.1 = k then (k, v) else kv) :: replaceKey rest k v

/-- Python item assignment `d[k] = v`: update in place when the key
exists, otherwise append at the end (insertion order). -/
def dictSet (d : Dict) (k : String) (v : Json) : Dict :=
  if dictHasKey d k then replaceKey d k v else d ++ [(k, v)]

/-- Embedding of the Python exceptions this program distinguishes. -/
inductive PyErr where
  | valueError (m : String)
  | typeError (m : String)
  | runtimeError (m : String)
  | other (m : String)

/-- Python `str(e)` on an exception: its message. -/
def PyErr.msg : PyErr → String
  | .valueError m => m
  | .typeError m => m
  | .runtimeError m => m
  | .other m => m

/-- The ASCII whitespace characters stripped by Python `str.strip()`. -/
def pyIsSpace (c : Char) : Bool :=
  c = ' ' || c = '\t' || c = '\n' || c = '\x0d' || c = '\x0b' || c = '\x0c'

/-- Python `s.strip()` restricted to ASCII whitespace. -/
def pyStrip (s : String) : String :=
  String.mk (((s.toList.dropWhile pyIsSpace).reverse.dropWhile pyIsSpace).reverse)

/-- If `pat` is a leading pattern of the list, return the remainder. -/
def dropPat : List Char → List Char → Option (List Char)
  | [], cs => some cs
  | _ :: _, [] => none
  | p :: ps, c :: cs => if p = c then dropPat ps cs else none

/-- Left-to-right removal of every occurrence of `pat`, fuelled by the
length of the input so the recursion is structural. Mirrors Python
`s.replace(pat, "")` for a non-empty `pat`. -/
def replaceAux (pat : List Char) : Nat → List Char → List Char
  | _, [] => []
  | 0, cs => cs
  | n + 1, c :: cs =>
      match dropPat pat (c :: cs) with
      | some rest => replaceAux pat n rest
      | none => c :: replaceAux pat n cs

/-- Python `s.replace(pat, "")` for a non-empty pattern. -/
def pyReplace (s pat : String) : String :=
  String.mk (replaceAux pat.toList s.toList.length s.toList)

/-- The cleaning step of `extract_table_info` (lines 90-92):
`response.text.strip()`, then removal of the markdown fences
`(three backticks)json` and bare triple backticks, then a final strip. -/
def cleanText (s : String) : String :=
  pyStrip (pyReplace (pyReplace (pyStrip s) "```json") "```")

/-- The record built for an empty model response (lines 82-86). -/
def emptyResponseRecord (p : Int) : Dict :=
  [("title", Json.str "Unknown"), ("page_number", Json.num p),
   ("error", Json.str "Empty response from model")]

/-- The record built when `json.loads` fails (lines 106-110). -/
def invalidJsonRecord (p : Int) (m : String) : Dict :=
  [("title", Json.str "Unknown"), ("page_number", Json.num p),
   ("error", Json.str ("Invalid JSON response: " ++ m))]

/-- The record built by the outer exception handler (lines 113-117). -/
def processErrorRecord (p : Int) (m : String) : Dict :=
  [("title", Json.str "Unknown"), ("page_number", Json.num p),
   ("error", Json.str ("Error processing page: " ++ m))]

/-- The Python `TypeError` message raised by the per-entry loop
(lines 99-102) when the entry is not a dictionary: for a string the
membership test succeeds but item assignment fails, for a list item
assignment with a string index fails, and for the remaining values the
`in` test itself fails. -/
def entryTypeErrorMsg : Json → String
  | .str _ => "str object does not support item assignment"
  | .arr _ => "list indices must be integers or slices, not str"
  | .num _ => "argument of type int is not iterable"
  | .bool _ => "argument of type bool is not iterable"
  | .null => "argument of type NoneType is not iterable"
  | .obj _ => ""

/-- One iteration of the loop at lines 99-102: default a missing
`title` to `"Unknown"`, then overwrite `page_number` with the current
page. A non-dictionary entry raises a `TypeError`. -/
def normalizeEntry (p : Int) : Json → Except PyErr Dict
  | .obj kvs =>
      Except.ok (dictSet
        (if dictHasKey kvs "title" then kvs
         else dictSet kvs "title" (Json.str "Unknown"))
        "page_number" (Json.num p))
  | j => Except.error (.typeError (entryTypeErrorMsg j))

/-- The whole `for entry in result` loop: the first raising entry aborts
the loop and the exception propagates (to the handler at line 112). -/
def normalizeEntries (p : Int) : List Json → Except PyErr (List Dict)
  | [] => Except.ok []
  | x :: rest =>
      match normalizeEntry p x with
      | .error e => Except.error e
      | .ok r =>
          match normalizeEntries p rest with
          | .error e => Except.error e
          | .ok rs => Except.ok (r :: rs)

/-- Abstraction of `json.loads`: on failure the `String` is the
`json.JSONDecodeError` message. -/
abbrev JsonParseFn := String → Except String Json

/-- Body of `extract_table_info` under the outer `try` (lines 57-110).
`resp` is the outcome of `model.generate_content` followed by the
`response.text` access: `Except.error` when that call raised, otherwise
the response text (`""` for a falsy text). The inner `try` at lines
88-105 catches exactly `json.JSONDecodeError`, which only `json.loads`
raises, so a parse failure yields `invalidJsonRecord` while a
`TypeError` from the loop propagates out of this body. -/
def extract_table_info_body (parse : JsonParseFn)
    (resp : Except PyErr String) (p : Int) : Except PyErr (List Dict) :=
  match resp with
  | .error e => Except.error e
  | .ok text =>
      if text = "" then Except.ok [emptyResponseRecord p]
      else
        match parse (cleanText text) with
        | .error m => Except.ok [invalidJsonRecord p m]
        | .ok j =>
            normalizeEntries p
              (match j with
               | Json.arr xs => xs
               | j0 => [j0])

/-- `extract_table_info` with its outer `except Exception` handler
(lines 112-117), keeping the exception type to show the handler leaves
nothing to propagate. -/
def extract_table_info_run (parse : JsonParseFn)
    (resp : Except PyErr String) (p : Int) : Except PyErr (List Dict) :=
  match extract_table_info_body parse resp p with
  | .ok l => Except.ok l
  | .error e => Except.ok [processErrorRecord p (PyErr.msg e)]

/-- The list of records `extract_table_info` returns. -/
def extract_table_info (parse : JsonParseFn)
    (resp : Except PyErr String) (p : Int) : List Dict :=
  match extract_table_info_body parse resp p with
  | .ok l => l
  | .error e => [processErrorRecord p (PyErr.msg e)]

/-- `get_api_key` (lines 14-28): `os.getenv` gives `none` when the
variable is unset; `if not api_key` is also true for the empty string;
the placeholder value is rejected next. Messages are abbreviated. -/
def get_api_key (env_GEMINI_API_KEY : Option String) : Except PyErr String :=
  match env_GEMINI_API_KEY with
  | none => Except.error (.valueError
      "GEMINI_API_KEY not found in environment variables.")
  | some api_key =>
      if api_key = "" then
        Except.error (.valueError
          "GEMINI_API_KEY not found in environment variables.")
      else if api_key = "your_api_key_here" then
        Except.error (.valueError
          "Please replace the placeholder in the .env file with your actual Gemini API key.")
      else Except.ok api_key

/-- The module-level configuration block (lines 34-42): `get_api_key`
runs inside a `try` whose handler re-raises a `RuntimeError`. The
`genai.configure` and `GenerativeModel` constructor calls are local
object setup and are modelled as succeeding. -/
def configure_gemini (env_GEMINI_API_KEY : Option String) : Except PyErr Unit :=
  match get_api_key env_GEMINI_API_KEY with
  | .ok _ => Except.ok ()
  | .error e => Except.error (.runtimeError
      ("Failed to configure Gemini API: " ++ PyErr.msg e
        ++ "\nPlease check your API key and try again."))

/-- Well-formed digit part of a Python base-10 integer literal:
non-empty, digits with single underscores strictly between digits. -/
def noDoubleUnderscore : List Char → Bool
  | [] => true
  | [_] => true
  | a :: b :: rest =>
      !(a = '_' && b = '_') && noDoubleUnderscore (b :: rest)

/-- Digit-group check for `int(...)` (underscores allowed between
digits, as in Python 3). -/
def validDigitsPart (cs : List Char) : Bool :=
  (!cs.isEmpty) &&
  cs.all (fun c => c.isDigit || c = '_') &&
  (match cs.head? with | some c => c.isDigit | none => false) &&
  (match cs.getLast? with | some c => c.isDigit | none => false) &&
  noDoubleUnderscore cs

/-- Value of a list of decimal digits. -/
def digitsVal (cs : List Char) : Int :=
  cs.foldl (fun acc c => acc * 10 + (Int.ofNat (c.toNat - 48))) 0

/-- Value of a stripped base-10 integer literal: optional sign, then
digit groups. `none` when the shape is invalid. -/
def pyIntCore : List Char → Option Int
  | '+' :: rest =>
      if validDigitsPart rest then
        some (digitsVal (rest.filter (fun c => !(c = '_'))))
      else none
  | '-' :: rest =>
      if validDigitsPart rest then
        some (-(digitsVal (rest.filter (fun c => !(c = '_')))))
      else none
  | cs =>
      if validDigitsPart cs then
        some (digitsVal (cs.filter (fun c => !(c = '_'))))
      else none

/-- Python `int(s)` for base 10: strip whitespace, optional sign, digit
groups; on any other shape raise `ValueError` (Unicode digits are not
modelled). -/
def pyIntParse (s : String) : Except PyErr Int :=
  match pyIntCore (pyStrip s).toList with
  | some n => Except.ok n
  | none => Except.error (.valueError
      ("invalid literal for int() with base 10: " ++ s))

/-- `get_pdf_dpi` (lines 30-32): `int(os.getenv("PDF_DPI", "200"))`.
The `int` conversion runs unguarded, so a bad value raises. -/
def get_pdf_dpi (env_PDF_DPI : Option String) : Except PyErr Int :=
  pyIntParse (env_PDF_DPI.getD "200")

/-- `convert_pdf_to_images` (lines 44-52), abstracting the library call
`convert_from_path` as `convert`. The `dpi` default is computed BEFORE
the `try`, so an exception from `get_pdf_dpi` is not wrapped; only a
failure of the conversion call itself is re-raised as `RuntimeError`. -/
def convert_pdf_to_images {Img : Type} (convert : String → Int → Except PyErr (List Img))
    (env_PDF_DPI : Option String) (pdf_path : String) (dpiArg : Option Int) :
    Except PyErr (List Img) :=
  match (match dpiArg with
         | some d => Except.ok d
         | none => get_pdf_dpi env_PDF_DPI) with
  | .error e => Except.error e
  | .ok dpi =>
      match convert pdf_path dpi with
      | .ok imgs => Except.ok imgs
      | .error e => Except.error (.runtimeError
          ("Error converting PDF to images: " ++ PyErr.msg e))

/-- The selection of input files by the driver (line 179):
`[f for f in os.listdir(input_dir) if f.endswith(".pdf")]`. -/
def select_pdf_files (dirListing : List String) : List String :=
  dirListing.filter (fun f => f.endsWith ".pdf")

/-- One iteration of the driver loop (lines 181-188): the body runs
`process_pdf_with_gemini` (abstracted as `processPdf`) under a `try`
whose handler prints the error, so each iteration completes either way.
The result is the line printed for this file. -/
def driver_iteration (processPdf : String → Except PyErr (List Dict))
    (pdf_file : String) : Except PyErr String :=
  match (processPdf ("input/" ++ pdf_file)).map
      (fun _ => "Extracted table info for " ++ pdf_file) with
  | .ok line => Except.ok line
  | .error e => Except.ok
      ("Error processing " ++ pdf_file ++ ": " ++ PyErr.msg e)

/-- The driver loop over the selected files: an exception escaping an
iteration would abort the remaining files (first `.error` wins). -/
def driver_loop (processPdf : String → Except PyErr (List Dict)) :
    List String → Except PyErr (List String)
  | [] => Except.ok []
  | f :: fs =>
      match driver_iteration processPdf f with
      | .error e => Except.error e
      | .ok line =>
          match driver_loop processPdf fs with
          | .error e => Except.error e
          | .ok rest => Except.ok (line :: rest)

/-- The script as a whole: module import (which configures Gemini and
dies on a configuration error) runs before `__main__` lists the input
directory and processes the files. The `Bool` records whether
`os.listdir(input_dir)` was ever called. -/
def runScript (env_GEMINI_API_KEY : Option String) (dirListing : List String)
    (processPdf : String → Except PyErr (List Dict)) :
    Except PyErr (List String) × Bool :=
  match configure_gemini env_GEMINI_API_KEY with
  | .error e => (Except.error e, false)
  | .ok _ => (driver_loop processPdf (select_pdf_files dirListing), true)

/-! ### Dictionary lemmas -/

theorem dictGet_replaceKey_self (d : Dict) (k : String) (v : Json)
    (h : dictHasKey d k = true) : dictGet (replaceKey d k v) k = some v := by
  induction d with
  | nil => simp [dictHasKey] at h
  | cons kv rest ih =>
      by_cases hk : kv.1 = k
      · simp [replaceKey, dictGet, hk]
      · simp [dictHasKey, hk] at h
        simp [replaceKey, dictGet, hk, ih h]

theorem dictGet_append_single (d : Dict) (k : String) (v : Json)
    (h : dictHasKey d k = false) : dictGet (d ++ [(k, v)]) k = some v := by
  induction d with
  | nil => simp [dictGet]
  | cons kv rest ih =>
      by_cases hk : kv.1 = k
      · simp [dictHasKey, hk] at h
      · simp [dictHasKey, hk] at h
        simp [dictGet, hk, ih h]

theorem dictGet_dictSet_self (d : Dict) (k : String) (v : Json) :
    dictGet (dictSet d k v) k = some v := by
  by_cases h : dictHasKey d k = true
  · simp [dictSet, h, dictGet_replaceKey_self d k v h]
  · simp at h
    simp [dictSet, h, dictGet_append_single d k v h]

theorem dictHasKey_replaceKey (d : Dict) (k k2 : String) (v : Json) :
    dictHasKey (replaceKey d k v) k2 = dictHasKey d k2 := by
  induction d with
  | nil => simp [replaceKey]
  | cons kv rest ih =>
      by_cases hk : kv.1 = k
      · by_cases hk2 : kv.1 = k2
        · simp [replaceKey, dictHasKey, hk, hk ▸ hk2, hk2]
        · have : ¬ k = k2 := by rw [← hk]; exact hk2
          simp [replaceKey, dictHasKey, hk, hk2, this, ih]
      · simp [replaceKey, dictHasKey, hk, ih]

theorem dictHasKey_append_single (d : Dict) (k k2 : String) (v : Json) :
    dictHasKey (d ++ [(k, v)]) k2 = (dictHasKey d k2 || decide (k = k2)) := by
  induction d with
  | nil => simp [dictHasKey]
  | cons kv rest ih =>
      by_cases hk2 : kv.1 = k2
      · simp [dictHasKey, hk2]
      · simp [dictHasKey, hk2, ih]

theorem dictHasKey_dictSet_self (d : Dict) (k : String) (v : Json) :
    dictHasKey (dictSet d k v) k = true := by
  by_cases h : dictHasKey d k = true
  · simp [dictSet, h, dictHasKey_replaceKey, h]
  · simp at h
    simp [dictSet, h, dictHasKey_append_single]

theorem dictHasKey_dictSet_of (d : Dict) (k k2 : String) (v : Json)
    (h : dictHasKey d k2 = true) : dictHasKey (dictSet d k v) k2 = true := by
  by_cases hk : dictHasKey d k = true
  · simp [dictSet, hk, dictHasKey_replaceKey, h]
  · simp at hk
    simp [dictSet, hk, dictHasKey_append_single, h]

/-! ### Normalizer lemmas -/

theorem normalizeEntry_obj (p : Int) (kvs : Dict) :
    ∃ r, normalizeEntry p (Json.obj kvs) = Except.ok r ∧
      dictHasKey r "title" = true ∧
      dictGet r "page_number" = some (Json.num p) := by
  refine ⟨_, rfl, ?_, dictGet_dictSet_self _ _ _⟩
  by_cases h : dictHasKey kvs "title" = true
  · simpa [h] using dictHasKey_dictSet_of kvs "page_number" "title" (Json.num p) h
  · simp at h
    simpa [h] using dictHasKey_dictSet_of (dictSet kvs "title" (Json.str "Unknown"))
      "page_number" "title" (Json.num p) (dictHasKey_dictSet_self kvs "title" _)

theorem normalizeEntry_ok_inv (p : Int) (j : Json) (r : Dict)
    (h : normalizeEntry p j = Except.ok r) :
    dictHasKey r "title" = true ∧
    dictGet r "page_number" = some (Json.num p) := by
  cases j with
  | obj kvs =>
      obtain ⟨r2, hr2, ht, hp⟩ := normalizeEntry_obj p kvs
      rw [hr2] at h
      cases h
      exact ⟨ht, hp⟩
  | null => exact absurd h (by simp [normalizeEntry])
  | bool b => exact absurd h (by simp [normalizeEntry])
  | num n => exact absurd h (by simp [normalizeEntry])
  | str s => exact absurd h (by simp [normalizeEntry])
  | arr xs => exact absurd h (by simp [normalizeEntry])

theorem normalizeEntry_nonobj (p : Int) (j : Json)
    (h : ∀ kvs, j ≠ Json.obj kvs) :
    normalizeEntry p j = Except.error (.typeError (entryTypeErrorMsg j)) := by
  cases j with
  | obj kvs => exact absurd rfl (h kvs)
  | null => rfl
  | bool b => rfl
  | num n => rfl
  | str s => rfl
  | arr xs => rfl

theorem normalizeEntries_ok_length (p : Int) (xs : List Json) (ys : List Dict)
    (h : normalizeEntries p xs = Except.ok ys) : ys.length = xs.length := by
  induction xs generalizing ys with
  | nil => simp [normalizeEntries] at h; simp [← h]
  | cons x rest ih =>
      simp only [normalizeEntries] at h
      cases hx : normalizeEntry p x with
      | error e => rw [hx] at h; cases h
      | ok r =>
          rw [hx] at h
          cases hrest : normalizeEntries p rest with
          | error e => rw [hrest] at h; cases h
          | ok rs =>
              rw [hrest] at h
              cases h
              simp [ih rs hrest]

theorem normalizeEntries_ok_inv (p : Int) (xs : List Json) (ys : List Dict)
    (h : normalizeEntries p xs = Except.ok ys) :
    ∀ r ∈ ys, dictHasKey r "title" = true ∧
      dictGet r "page_number" = some (Json.num p) := by
  induction xs generalizing ys with
  | nil =>
      simp [normalizeEntries] at h
      subst h
      simp
  | cons x rest ih =>
      simp only [normalizeEntries] at h
      cases hx : normalizeEntry p x with
      | error e => rw [hx] at h; cases h
      | ok r =>
          rw [hx] at h
          cases hrest : normalizeEntries p rest with
          | error e => rw [hrest] at h; cases h
          | ok rs =>
              rw [hrest] at h
              cases h
              intro r2 hr2
              cases hr2 with
              | head => exact normalizeEntry_ok_inv p x r hx
              | tail _ hmem => exact ih rs hrest r2 hmem

theorem normalizeEntries_all_obj (p : Int) (xs : List Json)
    (h : ∀ x ∈ xs, ∃ kvs, x = Json.obj kvs) :
    ∃ ys, normalizeEntries p xs = Except.ok ys := by
  induction xs with
  | nil => exact ⟨[], rfl⟩
  | cons x rest ih =>
      obtain ⟨kvs, hkvs⟩ := h x (List.mem_cons_self x rest)
      obtain ⟨r, hr, -, -⟩ := normalizeEntry_obj p kvs
      obtain ⟨rs, hrs⟩ := ih (fun y hy => h y (List.mem_cons_of_mem x hy))
      exact ⟨r :: rs, by simp [normalizeEntries, hkvs, hr, hrs]⟩

theorem normalizeEntries_bad (p : Int) (xs : List Json)
    (h : ∃ x ∈ xs, ∀ kvs, x ≠ Json.obj kvs) :
    ∃ e, normalizeEntries p xs = Except.error e := by
  induction xs with
  | nil => simp at h
  | cons x rest ih =>
      obtain ⟨x0, hx0, hno⟩ := h
      cases hx0 with
      | head =>
          refine ⟨PyErr.typeError (entryTypeErrorMsg x), ?_⟩
          simp [normalizeEntries, normalizeEntry_nonobj p x hno]
      | tail _ hmem =>
          cases hx : normalizeEntry p x with
          | error e => exact ⟨e, by simp [normalizeEntries, hx]⟩
          | ok r =>
              obtain ⟨e, he⟩ := ih ⟨x0, hmem, hno⟩
              exact ⟨e, by simp [normalizeEntries, hx, he]⟩

/-! ### Shape of the three error records -/

theorem record3_title (t e : Json) (p : Int) :
    dictHasKey [("title", t), ("page_number", Json.num p), ("error", e)]
      "title" = true := by
  simp [dictHasKey]

theorem record3_page (t e : Json) (p : Int) :
    dictGet [("title", t), ("page_number", Json.num p), ("error", e)]
      "page_number" = some (Json.num p) := by
  simp [dictGet]

theorem record3_error (t : Json) (m : String) (p : Int) :
    dictGet [("title", t), ("page_number", Json.num p), ("error", Json.str m)]
      "error" = some (Json.str m) := by
  simp [dictGet]

/-! ### Unfolding lemmas for `extract_table_info` -/

theorem extract_parse_arr (parse : JsonParseFn) (text : String) (p : Int)
    (xs : List Json) (hne : ¬ text = "")
    (hp : parse (cleanText text) = Except.ok (Json.arr xs)) :
    extract_table_info parse (Except.ok text) p =
      (match normalizeEntries p xs with
       | .ok l => l
       | .error e => [processErrorRecord p (PyErr.msg e)]) := by
  simp only [extract_table_info, extract_table_info_body]
  rw [if_neg hne]
  simp only [hp]

theorem extract_parse_single (parse : JsonParseFn) (text : String) (p : Int)
    (j : Json) (hne : ¬ text = "")
    (hp : parse (cleanText text) = Except.ok j)
    (hnl : ∀ xs, j ≠ Json.arr xs) :
    extract_table_info parse (Except.ok text) p =
      (match normalizeEntries p [j] with
       | .ok l => l
       | .error e => [processErrorRecord p (PyErr.msg e)]) := by
  cases j with
  | arr xs => exact absurd rfl (hnl xs)
  | null =>
      simp only [extract_table_info, extract_table_info_body]
      rw [if_neg hne]
      simp only [hp]
  | bool b =>
      simp only [extract_table_info, extract_table_info_body]
      rw [if_neg hne]
      simp only [hp]
  | num n =>
      simp only [extract_table_info, extract_table_info_body]
      rw [if_neg hne]
      simp only [hp]
  | str s =>
      simp only [extract_table_info, extract_table_info_body]
      rw [if_neg hne]
      simp only [hp]
  | obj kvs =>
      simp only [extract_table_info, extract_table_info_body]
      rw [if_neg hne]
      simp only [hp]

/-- Every record `extract_table_info` returns carries a `title` key and
the page number of the caller, whichever branch produced it. -/
theorem extract_records_inv (parse : JsonParseFn) (resp : Except PyErr String)
    (p : Int) :
    ∀ r ∈ extract_table_info parse resp p,
      dictHasKey r "title" = true ∧
      dictGet r "page_number" = some (Json.num p) := by
  intro r hr
  cases hb : extract_table_info_body parse resp p with
  | error e =>
      simp only [extract_table_info, hb] at hr
      simp at hr
      subst hr
      exact ⟨record3_title _ _ _, record3_page _ _ _⟩
  | ok l =>
      simp only [extract_table_info, hb] at hr
      cases resp with
      | error e => simp [extract_table_info_body] at hb
      | ok text =>
          by_cases ht : text = ""
          · simp [extract_table_info_body, ht] at hb
            subst hb
            simp at hr
            subst hr
            exact ⟨record3_title _ _ _, record3_page _ _ _⟩
          · cases hparse : parse (cleanText text) with
            | error m =>
                simp [extract_table_info_body, ht, hparse] at hb
                subst hb
                simp at hr
                subst hr
                exact ⟨record3_title _ _ _, record3_page _ _ _⟩
            | ok j =>
                simp only [extract_table_info_body, if_neg ht, hparse] at hb
                exact normalizeEntries_ok_inv p _ l hb r hr

theorem ne_empty_of_append_left (a b : String) (h : 0 < a.length) :
    a ++ b ≠ "" := by
  intro hc
  have hl := congrArg String.length hc
  simp [String.length_append] at hl
  omega

/-! ### Concrete inputs used by witnesses and counterexamples.
Each parse function agrees with `json.loads` on the one response text it
is paired with, and mimics its failure message elsewhere. -/

/-- Response text carrying one object whose page_number disagrees with
the page being processed. -/
def c1text : String := "[\x7b\"title\": \"Revenue\", \"page_number\": 99\x7d]"

def parseRevenue : JsonParseFn := fun s =>
  if s = c1text then
    Except.ok (Json.arr [Json.obj
      [("title", Json.str "Revenue"), ("page_number", Json.num 99)]])
  else Except.error "Expecting value: line 1 column 1 (char 0)"

/-- Response text carrying one object whose title is present but empty. -/
def c2text : String := "[\x7b\"title\": \"\"\x7d]"

def parseEmptyTitle : JsonParseFn := fun s =>
  if s = c2text then
    Except.ok (Json.arr [Json.obj [("title", Json.str "")]])
  else Except.error "Expecting value: line 1 column 1 (char 0)"

/-- A parse function failing on every input, as `json.loads` does on
text that is not JSON. -/
def parseAlwaysFail : JsonParseFn :=
  fun _ => Except.error "Expecting value: line 1 column 1 (char 0)"

/-- Response text carrying a single JSON object rather than an array. -/
def c7text : String := "\x7b\"title\": \"Solo\"\x7d"

def parseSolo : JsonParseFn := fun s =>
  if s = c7text then Except.ok (Json.obj [("title", Json.str "Solo")])
  else Except.error "Expecting value: line 1 column 1 (char 0)"

/-- Response text carrying an array with a bare string element. -/
def c9text : String := "[\"hello\"]"

def parseHello : JsonParseFn := fun s =>
  if s = c9text then Except.ok (Json.arr [Json.str "hello"])
  else Except.error "Expecting value: line 1 column 1 (char 0)"

/-! ### Claims -/

/-- C1: for every model response whose text parses as a JSON array of
objects, the normalizer returns exactly as many records as the array
has elements, and in every returned record the page_number equals the
page argument, regardless of any page_number the model reported. -/
theorem C1_array_of_objects_counts_and_page (parse : JsonParseFn)
    (text : String) (p : Int) (xs : List Json)
    (hne : text ≠ "")
    (hp : parse (cleanText text) = Except.ok (Json.arr xs))
    (hobj : ∀ x ∈ xs, ∃ kvs, x = Json.obj kvs) :
    (extract_table_info parse (Except.ok text) p).length = xs.length ∧
    ∀ r ∈ extract_table_info parse (Except.ok text) p,
      dictGet r "page_number" = some (Json.num p) := by
  obtain ⟨ys, hys⟩ := normalizeEntries_all_obj p xs hobj
  have he := extract_parse_arr parse text p xs hne hp
  simp only [hys] at he
  rw [he]
  refine ⟨normalizeEntries_ok_length p xs ys hys, ?_⟩
  intro r hr
  exact (normalizeEntries_ok_inv p xs ys hys r hr).2

/-- Witness for C1: a one-object array with model page 99, processed as
page 1, gives one record carrying page 1. -/
theorem C1_witness :
    (extract_table_info parseRevenue (Except.ok c1text) 1).length = 1 ∧
    ∀ r ∈ extract_table_info parseRevenue (Except.ok c1text) 1,
      dictGet r "page_number" = some (Json.num 1) :=
  C1_array_of_objects_counts_and_page parseRevenue c1text 1
    [Json.obj [("title", Json.str "Revenue"), ("page_number", Json.num 99)]]
    (by decide) (by rfl)
    (by
      intro x hx
      cases hx with
      | head => exact ⟨_, rfl⟩
      | tail _ hmem => cases hmem)

/-- C2 counterexample: a model object with an explicit empty title is
kept verbatim, so the produced record has an empty title string — the
claimed non-empty-title invariant fails on this input. -/
theorem C2_counterexample_empty_title :
    extract_table_info parseEmptyTitle (Except.ok c2text) 1 =
      [[("title", Json.str ""), ("page_number", Json.num 1)]] := by
  rfl

/-- C2 (amended): every record the normalizer produces has a `title`
field present (the code only substitutes `"Unknown"` when the key is
missing, keeping an empty model-supplied title) and a page_number equal
to the page it was derived from. -/
theorem C2_title_present_page_correct (parse : JsonParseFn)
    (resp : Except PyErr String) (p : Int) (r : Dict)
    (hr : r ∈ extract_table_info parse resp p) :
    dictHasKey r "title" = true ∧
    dictGet r "page_number" = some (Json.num p) :=
  extract_records_inv parse resp p r hr

/-- Witness for C2 (amended), on the empty-title record itself. -/
theorem C2_witness :
    dictHasKey [("title", Json.str ""), ("page_number", Json.num 1)]
      "title" = true ∧
    dictGet [("title", Json.str ""), ("page_number", Json.num 1)]
      "page_number" = some (Json.num 1) :=
  C2_title_present_page_correct parseEmptyTitle (Except.ok c2text) 1
    [("title", Json.str ""), ("page_number", Json.num 1)]
    (List.Mem.head _)

/-- C3: the normalizer never raises: seen with its exception type,
`extract_table_info` returns `Except.ok` of its record list for every
parse function, every inference outcome — including one that raised —
and every page number. -/
theorem C3_never_raises (parse : JsonParseFn) (resp : Except PyErr String)
    (p : Int) :
    extract_table_info_run parse resp p =
      Except.ok (extract_table_info parse resp p) := by
  unfold extract_table_info_run extract_table_info
  cases extract_table_info_body parse resp p with
  | ok l => rfl
  | error e => rfl

/-- C4: an empty response text, or a non-empty one whose cleaned text
the JSON parser rejects, yields exactly one record: title `"Unknown"`,
the page number of the caller, and a non-empty error description. -/
theorem C4_single_error_record (parse : JsonParseFn) (text : String)
    (p : Int)
    (h : text = "" ∨ ∃ m, parse (cleanText text) = Except.error m) :
    ∃ e, e ≠ "" ∧
      extract_table_info parse (Except.ok text) p =
        [[("title", Json.str "Unknown"), ("page_number", Json.num p),
          ("error", Json.str e)]] := by
  by_cases ht : text = ""
  · refine ⟨"Empty response from model", by decide, ?_⟩
    simp [extract_table_info, extract_table_info_body, ht,
      emptyResponseRecord]
  · rcases h with h | ⟨m, hm⟩
    · exact absurd h ht
    · refine ⟨"Invalid JSON response: " ++ m,
        ne_empty_of_append_left _ m (by decide), ?_⟩
      simp [extract_table_info, extract_table_info_body, ht, hm,
        invalidJsonRecord]

/-- Witness for C4: the empty response on page 3. -/
theorem C4_witness :
    ∃ e, e ≠ "" ∧
      extract_table_info parseAlwaysFail (Except.ok "") 3 =
        [[("title", Json.str "Unknown"), ("page_number", Json.num 3),
          ("error", Json.str e)]] :=
  C4_single_error_record parseAlwaysFail "" 3 (Or.inl rfl)

/-- C5: an absent or placeholder credential makes startup raise the
configuration error, and the input directory is never listed (second
component `false`), so no input file is listed or read. -/
theorem C5_credential_failure_before_listing (env : Option String)
    (dirListing : List String)
    (processPdf : String → Except PyErr (List Dict))
    (h : env = none ∨ env = some "your_api_key_here") :
    ∃ m, runScript env dirListing processPdf =
      (Except.error (PyErr.runtimeError
        ("Failed to configure Gemini API: " ++ m)), false) := by
  cases h with
  | inl h =>
      subst h
      exact ⟨"GEMINI_API_KEY not found in environment variables."
        ++ "\nPlease check your API key and try again.", rfl⟩
  | inr h =>
      subst h
      exact ⟨"Please replace the placeholder in the .env file with your actual Gemini API key."
        ++ "\nPlease check your API key and try again.", rfl⟩

/-- Witness for C5: unset credential, a non-empty input directory, a
process function that would succeed — nothing is listed or run. -/
theorem C5_witness :
    ∃ m, runScript none ["a.pdf", "b.txt"] (fun _ => Except.ok []) =
      (Except.error (PyErr.runtimeError
        ("Failed to configure Gemini API: " ++ m)), false) :=
  C5_credential_failure_before_listing none ["a.pdf", "b.txt"]
    (fun _ => Except.ok []) (Or.inl rfl)

theorem driver_iteration_ok (processPdf : String → Except PyErr (List Dict))
    (f : String) :
    driver_iteration processPdf f =
      Except.ok (match processPdf ("input/" ++ f) with
        | .ok _ => "Extracted table info for " ++ f
        | .error e => "Error processing " ++ f ++ ": " ++ PyErr.msg e) := by
  unfold driver_iteration
  cases processPdf ("input/" ++ f) with
  | ok l => rfl
  | error e => rfl

/-- C6: the driver loop never aborts: it emits exactly one report per
file, and each report is determined by the outcome of that file alone,
so a failing PDF produces an error line while every other file is still
processed and reported. -/
theorem C6_batch_isolation (processPdf : String → Except PyErr (List Dict))
    (files : List String) :
    ∃ lines, driver_loop processPdf files = Except.ok lines ∧
      lines.length = files.length ∧
      ∀ i (hi : i < files.length),
        lines[i]? = some (match processPdf ("input/" ++ files[i]) with
          | .ok _ => "Extracted table info for " ++ files[i]
          | .error e =>
              "Error processing " ++ files[i] ++ ": " ++ PyErr.msg e) := by
  induction files with
  | nil => exact ⟨[], rfl, rfl, fun i hi => absurd hi (by simp)⟩
  | cons f fs ih =>
      obtain ⟨lines, hl, hlen, hidx⟩ := ih
      refine ⟨(match processPdf ("input/" ++ f) with
               | .ok _ => "Extracted table info for " ++ f
               | .error e =>
                   "Error processing " ++ f ++ ": " ++ PyErr.msg e) :: lines,
        ?_, ?_, ?_⟩
      · simp only [driver_loop, driver_iteration_ok, hl]
      · simp [hlen]
      · intro i hi
        cases i with
        | zero => simp
        | succ n =>
            simp only [List.getElem?_cons_succ, List.getElem_cons_succ]
            exact hidx n (by simpa using Nat.lt_of_succ_lt_succ hi)

/-- A batch where the middle PDF fails and the others succeed. -/
def processMixed : String → Except PyErr (List Dict) := fun path =>
  if path = "input/bad.pdf" then
    Except.error (PyErr.runtimeError
      "Error in main PDF processing workflow: bad file")
  else Except.ok []

/-- Witness for C6: one failing PDF among three still yields three
report lines, one per file. -/
theorem C6_witness :
    ∃ lines, driver_loop processMixed ["a.pdf", "bad.pdf", "c.pdf"] =
        Except.ok lines ∧
      lines.length = 3 ∧
      ∀ i (hi : i < (["a.pdf", "bad.pdf", "c.pdf"] : List String).length),
        lines[i]? = some
          (match processMixed
              ("input/" ++ (["a.pdf", "bad.pdf", "c.pdf"] : List String)[i]) with
          | .ok _ => "Extracted table info for "
              ++ (["a.pdf", "bad.pdf", "c.pdf"] : List String)[i]
          | .error e => "Error processing "
              ++ (["a.pdf", "bad.pdf", "c.pdf"] : List String)[i]
              ++ ": " ++ PyErr.msg e) :=
  C6_batch_isolation processMixed ["a.pdf", "bad.pdf", "c.pdf"]

/-- C7: a response parsing to a non-list value is processed exactly as
the singleton array holding that value would be, and the result is a
single record; when the value is an object, defaulting and the
page-number overwrite apply to it (covered by the invariant theorems). -/
theorem C7_nonlist_wrapped (parse : JsonParseFn) (text : String) (p : Int)
    (j : Json)
    (hne : text ≠ "")
    (hp : parse (cleanText text) = Except.ok j)
    (hnl : ∀ xs, j ≠ Json.arr xs) :
    extract_table_info parse (Except.ok text) p =
      extract_table_info (fun _ => Except.ok (Json.arr [j]))
        (Except.ok text) p ∧
    (extract_table_info parse (Except.ok text) p).length = 1 := by
  have h1 := extract_parse_single parse text p j hne hp hnl
  have h2 := extract_parse_arr (fun _ => Except.ok (Json.arr [j]))
    text p [j] hne rfl
  refine ⟨by rw [h1, h2], ?_⟩
  rw [h1]
  cases hn : normalizeEntries p [j] with
  | ok ys =>
      simp only [hn]
      simpa using normalizeEntries_ok_length p [j] ys hn
  | error e => simp [hn]

/-- Witness for C7: a single object response on page 2. -/
theorem C7_witness :
    extract_table_info parseSolo (Except.ok c7text) 2 =
      extract_table_info
        (fun _ => Except.ok (Json.arr [Json.obj [("title", Json.str "Solo")]]))
        (Except.ok c7text) 2 ∧
    (extract_table_info parseSolo (Except.ok c7text) 2).length = 1 :=
  C7_nonlist_wrapped parseSolo c7text 2 (Json.obj [("title", Json.str "Solo")])
    (by decide) (by rfl) (fun xs h => Json.noConfusion h)

/-- C8: a name from the input directory listing enters the batch iff it
ends with the ".pdf" extension. -/
theorem C8_pdf_selection (dirListing : List String) (f : String) :
    f ∈ select_pdf_files dirListing ↔
      f ∈ dirListing ∧ f.endsWith ".pdf" = true := by
  simp [select_pdf_files, List.mem_filter]

/-- C9: a parsed list with a non-object element makes the per-entry
loop raise a `TypeError`; the outer handler then returns a single
whole-page error record, discarding every other element of the list. -/
theorem C9_nonobject_element_discards_page (parse : JsonParseFn)
    (text : String) (p : Int) (xs : List Json)
    (hne : text ≠ "")
    (hp : parse (cleanText text) = Except.ok (Json.arr xs))
    (hbad : ∃ x ∈ xs, ∀ kvs, x ≠ Json.obj kvs) :
    ∃ e, normalizeEntries p xs = Except.error e ∧
      extract_table_info parse (Except.ok text) p =
        [processErrorRecord p (PyErr.msg e)] := by
  obtain ⟨e, he⟩ := normalizeEntries_bad p xs hbad
  have h1 := extract_parse_arr parse text p xs hne hp
  simp only [he] at h1
  exact ⟨e, he, h1⟩

/-- Witness for C9: an array holding one bare string, with a
well-formed page otherwise, collapses to one error record. -/
theorem C9_witness :
    ∃ e, normalizeEntries 4 [Json.str "hello"] = Except.error e ∧
      extract_table_info parseHello (Except.ok c9text) 4 =
        [processErrorRecord 4 (PyErr.msg e)] :=
  C9_nonobject_element_discards_page parseHello c9text 4 [Json.str "hello"]
    (by decide) (by rfl)
    ⟨Json.str "hello", List.Mem.head _, fun kvs h => Json.noConfusion h⟩

theorem pyIntParse_error_shape (s : String) (e : PyErr)
    (h : pyIntParse s = Except.error e) : ∃ m, e = PyErr.valueError m := by
  unfold pyIntParse at h
  cases hc : pyIntCore (pyStrip s).toList with
  | some n => rw [hc] at h; cases h
  | none =>
      rw [hc] at h
      cases h
      exact ⟨_, rfl⟩

/-- C10: a `PDF_DPI` value the `int` conversion rejects raises a
`ValueError` inside `get_pdf_dpi`, and because the dpi lookup precedes
the guarded conversion call it escapes `convert_pdf_to_images`
unchanged — not wrapped into the conversion `RuntimeError`; an unset
variable yields the default 200. -/
theorem C10_dpi_error_unwrapped {Img : Type}
    (convert : String → Int → Except PyErr (List Img))
    (path s : String) (e : PyErr)
    (hbad : pyIntParse s = Except.error e) :
    (∃ m, e = PyErr.valueError m) ∧
    convert_pdf_to_images convert (some s) path none = Except.error e ∧
    get_pdf_dpi none = Except.ok 200 := by
  refine ⟨pyIntParse_error_shape s e hbad, ?_, by rfl⟩
  unfold convert_pdf_to_images get_pdf_dpi
  simp only [Option.getD, hbad]

/-- Witness for C10: `PDF_DPI=abc` raises an unwrapped ValueError even
for a conversion function that always succeeds. -/
theorem C10_witness :
    (∃ m, PyErr.valueError "invalid literal for int() with base 10: abc"
      = PyErr.valueError m) ∧
    convert_pdf_to_images (fun _ _ => Except.ok ([] : List Unit))
      (some "abc") "input/x.pdf" none =
      Except.error
        (PyErr.valueError "invalid literal for int() with base 10: abc") ∧
    get_pdf_dpi none = Except.ok 200 :=
  C10_dpi_error_unwrapped (fun _ _ => Except.ok ([] : List Unit))
    "input/x.pdf" "abc"
    (PyErr.valueError "invalid literal for int() with base 10: abc")
    (by rfl)
